import Mathlib

/-!
Verification development for the automated OpenSearch UI dashboard
deployment sample.  The repository has two parts:

1. a CDK stack (`cdk/lib/dashboard-stack.ts`) that declares the OpenSearch
   domain, the OpenSearch UI application, the dashboard-setup Lambda and the
   custom resource that triggers it; this part is embedded directly from the
   TypeScript source; and
2. a Python Lambda (`lambda/dashboard_automation.py`) — the dashboard
   automation handler — whose source is not part of the staged files; its
   behaviour (request signing, HTTP retry, readiness polling, idempotent
   object-graph provisioning) is modelled from the specification and every
   definition doing so says so in its doc comment.
-/

namespace DashboardStack

/-- Props of the stack, from `OpenSearchDashboardStackProps` in
`cdk/lib/dashboard-stack.ts` (lines 9-13): all three fields are optional
strings in the TypeScript interface. -/
structure OpenSearchDashboardStackProps where
  masterUserArn : Option String
  enableVpc : Option String
  idcInstanceArn : Option String
deriving DecidableEq, Repr

/-- Embeds line 22 of `dashboard-stack.ts`:
`const enableVpc = props?.enableVpc?.toLowerCase() === 'true';`.
The optional chaining makes the flag false when `props` or `props.enableVpc`
is absent; otherwise the lowercased value is compared to the string
`"true"`. -/
def enableVpcOf (props : Option OpenSearchDashboardStackProps) : Bool :=
  match props with
  | none => false
  | some p =>
    match p.enableVpc with
    | none => false
    | some s => s.toLower == "true"

/-- Which VPC-related resources the stack constructor instantiates, from
`dashboard-stack.ts`: the `Vpc` (line 25), the `OpenSearchSecurityGroup`
(line 116), the VPC placement of the domain (lines 171-179), the VPC
placement of the Lambda (lines 276-279), the extra
`AWSLambdaVPCAccessExecutionRole` managed policy on the Lambda role
(lines 60-62) and the `AuthorizeOpenSearchUIVpcAccess` custom resource
(lines 185-206). -/
structure SynthesizedVpcResources where
  vpcCreated : Bool
  openSearchSecurityGroupCreated : Bool
  domainInVpc : Bool
  lambdaInVpc : Bool
  vpcAccessPolicyAdded : Bool
  authorizeVpcEndpointAccessCreated : Bool
deriving DecidableEq, Repr

/-- Embeds the constructor's conditional resource creation: `vpc` is created
iff `enableVpc` (line 25); the security group iff `vpc` (line 116); the
domain and the Lambda receive VPC configuration iff `vpc &&
openSearchSecurityGroup` (lines 171 and 276); the VPC access policy and the
authorize custom resource iff `vpc` (lines 60 and 185). -/
def synthesize (props : Option OpenSearchDashboardStackProps) : SynthesizedVpcResources :=
  let enableVpc := enableVpcOf props
  let vpc := enableVpc
  let openSearchSecurityGroup := vpc
  { vpcCreated := vpc
    openSearchSecurityGroupCreated := openSearchSecurityGroup
    domainInVpc := vpc && openSearchSecurityGroup
    lambdaInVpc := vpc && openSearchSecurityGroup
    vpcAccessPolicyAdded := vpc
    authorizeVpcEndpointAccessCreated := vpc }

/-- Line 20 of `dashboard-stack.ts`: `const domainName = 'data-source-demo';`. -/
def domainName : String := "data-source-demo"

/-- Line 21 of `dashboard-stack.ts`: `const appName = 'app-demo';`. -/
def appName : String := "app-demo"

/-- Lines 290-291 of `dashboard-stack.ts`: the UI endpoint is
`application-{name}-{id}.{region}.opensearch.amazonaws.com`. -/
def openSearchUIEndpoint (appId region : String) : String :=
  "application-" ++ appName ++ "-" ++ appId ++ "." ++ region ++ ".opensearch.amazonaws.com"

/-- The `properties` record passed to the `DashboardSetupResource` custom
resource, lines 296-303 of `dashboard-stack.ts`: these become the
`ResourceProperties` of every lifecycle event delivered to the handler. -/
def dashboardSetupProperties (appId region domainEndpoint : String) : List (String × String) :=
  [("opensearchUIEndpoint", openSearchUIEndpoint appId region),
   ("domainName", domainName),
   ("domainEndpoint", domainEndpoint),
   ("workspaceName", "workspace-demo"),
   ("region", region)]

/-- The explicit `addDependency` edges of the stack, as pairs
(dependent construct id, dependency construct id): line 205 (only when the
VPC is enabled), line 227, line 258 and line 307 of `dashboard-stack.ts`. -/
def explicitDependencies (enableVpc : Bool) : List (String × String) :=
  (if enableVpc then [("AuthorizeOpenSearchUIVpcAccess", "OpenSearchDomain")] else []) ++
  [("DomainReadyWaiter", "OpenSearchDomain"),
   ("OpenSearchUI", "DomainReadyWaiter"),
   ("DashboardSetupResource", "OpenSearchUI")]

end DashboardStack

/-- C9: the custom resource does not pass a property named `apiEndpoint`:
the UI endpoint property set at line 297 of `dashboard-stack.ts` is named
`opensearchUIEndpoint`, refuting the claimed field list at a concrete
instantiation. -/
theorem dashboardSetupProperties_no_apiEndpoint :
    ((DashboardStack.dashboardSetupProperties "abc123" "us-west-2"
        "search-demo.example.com").map Prod.fst).contains "apiEndpoint" = false := by
  decide

/-- C9 (amended): every lifecycle event delivered to the handler carries
ResourceProperties with exactly the fields `opensearchUIEndpoint`,
`domainName`, `domainEndpoint`, `workspaceName` and `region`, in that order;
the workspace name is always `workspace-demo` and the domain name always
`data-source-demo`. -/
theorem dashboardSetupProperties_fields (appId region domainEndpoint : String) :
    (DashboardStack.dashboardSetupProperties appId region domainEndpoint).map Prod.fst =
      ["opensearchUIEndpoint", "domainName", "domainEndpoint", "workspaceName", "region"] ∧
    (DashboardStack.dashboardSetupProperties appId region domainEndpoint).lookup
        "workspaceName" = some "workspace-demo" ∧
    (DashboardStack.dashboardSetupProperties appId region domainEndpoint).lookup
        "domainName" = some "data-source-demo" := by
  refine ⟨rfl, ?_, ?_⟩ <;> simp [DashboardStack.dashboardSetupProperties,
    DashboardStack.domainName, List.lookup]

/-- C10: the stack creates the VPC, the OpenSearch security group, the VPC
placement of the domain and of the Lambda, the VPC access policy and the
VPC-endpoint-access authorizer exactly when the `enableVpc` prop, lowercased,
equals the string `"true"`; for any other value, including an absent prop,
none of these resources are created. -/
theorem synthesize_vpc_iff_enableVpc (props : Option DashboardStack.OpenSearchDashboardStackProps) :
    (DashboardStack.enableVpcOf props = true ↔
      ∃ p s, props = some p ∧ p.enableVpc = some s ∧ s.toLower = "true") ∧
    DashboardStack.synthesize props =
      { vpcCreated := DashboardStack.enableVpcOf props
        openSearchSecurityGroupCreated := DashboardStack.enableVpcOf props
        domainInVpc := DashboardStack.enableVpcOf props
        lambdaInVpc := DashboardStack.enableVpcOf props
        vpcAccessPolicyAdded := DashboardStack.enableVpcOf props
        authorizeVpcEndpointAccessCreated := DashboardStack.enableVpcOf props } := by
  constructor
  · cases props with
    | none => simp [DashboardStack.enableVpcOf]
    | some p =>
      cases hp : p.enableVpc with
      | none => simp [DashboardStack.enableVpcOf, hp]
      | some s =>
        simp only [DashboardStack.enableVpcOf, hp, beq_iff_eq]
        constructor
        · intro h; exact ⟨p, s, rfl, hp, h⟩
        · rintro ⟨q, t, hq, ht, h⟩
          cases hq
          rw [hp] at ht
          cases ht
          exact h
  · simp [DashboardStack.synthesize, Bool.and_self]

namespace DashboardAutomation

/-- Modelled from the spec: outcome of one network attempt by the HTTP
Client — either an HTTP response (status and body) or a connection-level
error (the handler source `lambda/dashboard_automation.py` is not among the
staged files). -/
inductive HttpOutcome where
  | response (status : Nat) (body : String)
  | connectionError
deriving DecidableEq, Repr

/-- Modelled from the spec: failure classification of the HTTP Client —
statuses 409, 425, 429 and every 5xx are retryable; every other status in
the failure range is permanent. -/
def isRetryableStatus (status : Nat) : Bool :=
  status == 409 || status == 425 || status == 429 || (500 ≤ status && status ≤ 599)

/-- Modelled from the spec: a failure outcome is retryable when it is a
connection-level error or its status is retryable. -/
def isRetryableOutcome : HttpOutcome → Bool
  | .connectionError => true
  | .response status _ => isRetryableStatus status

/-- Modelled from the spec: result of the HTTP Client — a successful
response, a PermanentFailure carrying the upstream status and body, or
RetryExhausted after the bounded attempt count. -/
inductive SendResult where
  | success (status : Nat) (body : String)
  | permanentFailure (status : Nat) (body : String)
  | retryExhausted
deriving DecidableEq, Repr

/-- Modelled from the spec: the retry loop of the HTTP Client, with the
network abstracted as a map from attempt index to outcome and the attempt
ceiling as fuel; returns the result together with the number of attempts
consumed.  A status below 400 is a success; a retryable failure consumes
the attempt and retries; a permanent failure surfaces immediately. -/
def sendFrom (net : Nat → HttpOutcome) : Nat → Nat → SendResult × Nat
  | 0, used => (.retryExhausted, used)
  | fuel + 1, used =>
    match net used with
    | .connectionError => sendFrom net fuel (used + 1)
    | .response status body =>
      if status < 400 then (.success status body, used + 1)
      else if isRetryableStatus status then sendFrom net fuel (used + 1)
      else (.permanentFailure status body, used + 1)

/-- Modelled from the spec: `send(signedRequest)` with a bounded attempt
count `maxAttempts`. -/
def send (net : Nat → HttpOutcome) (maxAttempts : Nat) : SendResult × Nat :=
  sendFrom net maxAttempts 0

/-- Modelled from the spec: the four saved-object types of the provisioned
graph. -/
inductive SavedObjectType where
  | workspace
  | indexPattern
  | visualization
  | dashboard
deriving DecidableEq, Repr

/-- Modelled from the spec: the API-side name of each saved-object type. -/
def typeName : SavedObjectType → String
  | .workspace => "workspace"
  | .indexPattern => "index-pattern"
  | .visualization => "visualization"
  | .dashboard => "dashboard"

/-- Modelled from the spec: the stable namespace from which deterministic
ids are derived, built from the domain name and workspace name supplied in
the resource properties. -/
def stableNamespace (domainNameVal workspaceNameVal : String) : String :=
  domainNameVal ++ ":" ++ workspaceNameVal

/-- Modelled from the spec: a saved-object id is a deterministic string
derived from the stable namespace plus the object type — it has no random
component. -/
def deterministicId (ns : String) (t : SavedObjectType) : String :=
  ns ++ ":" ++ typeName t

/-- Modelled from the spec: the environment a run happens in (process id,
random seed, clock); the deterministic id computation reads none of it. -/
structure RunEnvironment where
  processId : Nat
  randomSeed : Nat
  clock : Nat
deriving DecidableEq, Repr

/-- Modelled from the spec: the workspace-id computation of the handler —
a pure function of the stable namespace and the object type, independent of
the run environment (no randomness, no clock). -/
def computeWorkspaceId (e : RunEnvironment) (domainNameVal workspaceNameVal : String) : String :=
  deterministicId (stableNamespace domainNameVal workspaceNameVal) .workspace

/-- Modelled from the spec: the `ResourceProperties` of a lifecycle event,
exactly the fields the CDK custom resource passes (see
`DashboardStack.dashboardSetupProperties`). -/
structure ResourceProperties where
  opensearchUIEndpoint : String
  domainName : String
  domainEndpoint : String
  workspaceName : String
  region : String
deriving DecidableEq, Repr

/-- The stable namespace of an event's properties. -/
def nsOf (props : ResourceProperties) : String :=
  stableNamespace props.domainName props.workspaceName

/-- Modelled from the spec: a saved object — type, deterministic id,
attributes (abstracted as one string payload) and references to the objects
it depends on. -/
structure SavedObject where
  type : SavedObjectType
  id : String
  attributes : String
  references : List (SavedObjectType × String)
deriving DecidableEq, Repr

/-- Modelled from the spec: the ordered list of stage descriptors of the
Object Graph Provisioner, in creation dependency order; forward (create)
and reverse (delete) traversal share this one definition.  The data-source
link is part of the workspace payload. -/
def stageTypes : List SavedObjectType :=
  [.workspace, .indexPattern, .visualization, .dashboard]

/-- Modelled from the spec: the deterministic payload builder of each
stage. -/
def payloadFor (props : ResourceProperties) : SavedObjectType → String
  | .workspace => "workspace " ++ props.workspaceName ++ " linked to data source " ++ props.domainName
  | .indexPattern => "index pattern over the sample metrics index"
  | .visualization => "pie chart on field status_code"
  | .dashboard => "dashboard Application Metrics"

/-- Modelled from the spec: the reference list of each stage, pointing one
step down the DAG dashboard to visualization to index-pattern to
workspace. -/
def referencesFor (ns : String) : SavedObjectType → List (SavedObjectType × String)
  | .workspace => []
  | .indexPattern => [(.workspace, deterministicId ns .workspace)]
  | .visualization => [(.indexPattern, deterministicId ns .indexPattern)]
  | .dashboard => [(.visualization, deterministicId ns .visualization)]

/-- Modelled from the spec: the saved object a stage upserts, keyed on its
deterministic id. -/
def stageObject (props : ResourceProperties) (t : SavedObjectType) : SavedObject :=
  { type := t
    id := deterministicId (nsOf props) t
    attributes := payloadFor props t
    references := referencesFor (nsOf props) t }

/-- Whether a stored object has the given type and id (the upsert key). -/
def sameKey (o : SavedObject) (t : SavedObjectType) (i : String) : Bool :=
  o.type == t && o.id == i

/-- Modelled from the spec: the create-or-update request of a stage, keyed
on the deterministic id — an existing object with identical content is left
in place (success, no duplicate), an existing object with different content
is updated in place, an absent object is created. -/
def upsert (store : List SavedObject) (o : SavedObject) : List SavedObject :=
  if store.any (fun x => sameKey x o.type o.id) then
    store.map (fun x => if sameKey x o.type o.id then o else x)
  else
    store ++ [o]

/-- Modelled from the spec: the forward path of the Object Graph
Provisioner — one idempotent upsert per stage, in dependency order. -/
def provisionForward (props : ResourceProperties) (store : List SavedObject) : List SavedObject :=
  stageTypes.foldl (fun s t => upsert s (stageObject props t)) store

/-- How many stored objects carry the given upsert key. -/
def countKey (store : List SavedObject) (t : SavedObjectType) (i : String) : Nat :=
  (store.filter (fun x => sameKey x t i)).length

/-- Modelled from the spec: the ProvisioningResult returned to the caller. -/
structure ProvisioningResult where
  workspaceId : String
  dashboardId : String
  succeeded : Bool
deriving DecidableEq, Repr

/-- Modelled from the spec: the Create/Update path of the handler — runs the
forward provisioning pass and reports the deterministic workspace and
dashboard ids. -/
def handleCreate (props : ResourceProperties) (store : List SavedObject) :
    ProvisioningResult × List SavedObject :=
  ({ workspaceId := deterministicId (nsOf props) .workspace
     dashboardId := deterministicId (nsOf props) .dashboard
     succeeded := true },
   provisionForward props store)

/-- Modelled from the spec: what the saved-objects API answers to a delete
call — the object was deleted, or it was not found. -/
inductive DeleteApiResult where
  | deleted
  | notFound
deriving DecidableEq, Repr

/-- Modelled from the spec: the raw delete call of the saved-objects store,
keyed on type and id; answers `notFound` when no such object exists. -/
def rawDelete (store : List SavedObject) (t : SavedObjectType) (i : String) :
    List SavedObject × DeleteApiResult :=
  if store.any (fun x => sameKey x t i) then
    (store.filter (fun x => !(sameKey x t i)), .deleted)
  else
    (store, .notFound)

/-- Modelled from the spec: how the provisioner interprets a stage's delete
answer — `deleted` is success and `notFound` (already absent) also counts
as success. -/
def stageDeleteOk : DeleteApiResult → Bool
  | .deleted => true
  | .notFound => true

/-- Outcome of the reverse (delete) pass: the remaining store, whether every
stage succeeded, and the delete operations issued in order. -/
structure DeletePass where
  store : List SavedObject
  succeeded : Bool
  ops : List (SavedObjectType × String)
deriving DecidableEq, Repr

/-- One stage of the reverse pass: issue the raw delete for the stage's
deterministic id and fold its interpreted outcome into the pass. -/
def deleteStep (ns : String) (acc : DeletePass) (t : SavedObjectType) : DeletePass :=
  { store := (rawDelete acc.store t (deterministicId ns t)).1
    succeeded := acc.succeeded && stageDeleteOk (rawDelete acc.store t (deterministicId ns t)).2
    ops := acc.ops ++ [(t, deterministicId ns t)] }

/-- Modelled from the spec: the reverse path of the Object Graph
Provisioner — walks the same stage list in reverse dependency order
(dashboard, visualization, index-pattern, workspace). -/
def provisionDelete (props : ResourceProperties) (store : List SavedObject) : DeletePass :=
  stageTypes.reverse.foldl (deleteStep (nsOf props)) { store := store, succeeded := true, ops := [] }

/-- Whether no object of the graph's four deterministic keys is present. -/
def graphAbsent (ns : String) (store : List SavedObject) : Bool :=
  stageTypes.all fun t => !(store.any fun x => sameKey x t (deterministicId ns t))

/-- Modelled from the spec: the Delete path of the handler — runs the
reverse pass and reports success when every stage succeeded. -/
def handleDelete (props : ResourceProperties) (store : List SavedObject) :
    ProvisioningResult × List SavedObject :=
  let pass := provisionDelete props store
  ({ workspaceId := deterministicId (nsOf props) .workspace
     dashboardId := deterministicId (nsOf props) .dashboard
     succeeded := pass.succeeded },
   pass.store)

end DashboardAutomation

namespace DashboardAutomation

/-- Modelled from the spec: result of the Readiness Gate. -/
inductive GateResult where
  | ready
  | timedOut
deriving DecidableEq, Repr

/-- Modelled from the spec: one observable action of the handler — a health
poll (with the readiness it observed) or a saved-object write. -/
inductive TraceEvent where
  | healthPoll (ready : Bool)
  | write (t : SavedObjectType) (i : String)
deriving DecidableEq, Repr

/-- Modelled from the spec: the bounded polling loop of the Readiness Gate.
The health query is abstracted as a map from poll index to readiness, the
fixed interval is abstracted into the index, and the deadline is the fuel;
the trace records every poll made.  Returns as soon as a poll observes
ready, or times out when the fuel runs out. -/
def waitFrom (health : Nat → Bool) : Nat → Nat → GateResult × List TraceEvent
  | 0, _ => (.timedOut, [])
  | fuel + 1, k =>
    if health k then (.ready, [.healthPoll true])
    else
      let (r, tr) := waitFrom health fuel (k + 1)
      (r, .healthPoll false :: tr)

/-- Modelled from the spec: `waitUntilReady(domainIdentifier, deadline)` —
polls from index 0 under the given deadline. -/
def waitUntilReady (health : Nat → Bool) (deadline : Nat) : GateResult × List TraceEvent :=
  waitFrom health deadline 0

/-- The write actions of the forward pass, one per stage in dependency
order. -/
def writeTrace (props : ResourceProperties) : List TraceEvent :=
  stageTypes.map fun t => .write t (deterministicId (nsOf props) t)

/-- Modelled from the spec: the observable trace of a Create invocation —
the Readiness Gate runs first, and the provisioner's writes happen only
when the gate returned ready. -/
def handlerTrace (health : Nat → Bool) (deadline : Nat) (props : ResourceProperties) :
    List TraceEvent :=
  let (r, tr) := waitUntilReady health deadline
  match r with
  | .ready => tr ++ writeTrace props
  | .timedOut => tr

/-- Whether a trace event is a saved-object write. -/
def isWrite : TraceEvent → Bool
  | .write _ _ => true
  | .healthPoll _ => false

/-- Modelled from the spec: the request type of a lifecycle event. -/
inductive RequestType where
  | Create
  | Update
  | Delete
deriving DecidableEq, Repr

/-- Modelled from the spec: an inbound lifecycle event. -/
structure LifecycleEvent where
  requestType : RequestType
  requestId : String
  physicalResourceId : Option String
  resourceProperties : ResourceProperties
deriving DecidableEq, Repr

/-- Modelled from the spec: the status of the structured response the
orchestration system expects. -/
inductive ResponseStatus where
  | SUCCESS
  | FAILED
deriving DecidableEq, Repr

/-- Modelled from the spec: the structured response of the Lifecycle Event
Adapter. -/
structure CfnResponse where
  physicalResourceId : String
  status : ResponseStatus
  workspaceId : Option String
  dashboardId : Option String
  reason : Option String
deriving DecidableEq, Repr

/-- Modelled from the spec: the inner run of the handler.  `fault` injects
an unclassified exception raised inside any component (`some msg` means a
component threw with message `msg`); without a fault the event's request
type selects the forward or the reverse path. -/
def runInner (ev : LifecycleEvent) (store : List SavedObject) (fault : Option String) :
    Except String (ProvisioningResult × List SavedObject) :=
  match fault with
  | some msg => .error msg
  | none =>
    match ev.requestType with
    | .Create => .ok (handleCreate ev.resourceProperties store)
    | .Update => .ok (handleCreate ev.resourceProperties store)
    | .Delete => .ok (handleDelete ev.resourceProperties store)

/-- Modelled from the spec: the Lifecycle Event Adapter boundary — every
failure of the inner run is caught and converted into a structured FAILED
response carrying a human-readable reason with the requestId for
correlation; nothing propagates uncaught. -/
def handle (ev : LifecycleEvent) (store : List SavedObject) (fault : Option String) :
    CfnResponse × List SavedObject :=
  match runInner ev store fault with
  | .ok (r, s) =>
    ({ physicalResourceId := r.workspaceId
       status := if r.succeeded then .SUCCESS else .FAILED
       workspaceId := some r.workspaceId
       dashboardId := some r.dashboardId
       reason := none }, s)
  | .error msg =>
    ({ physicalResourceId := (ev.physicalResourceId).getD "none"
       status := .FAILED
       workspaceId := none
       dashboardId := none
       reason := some ("Unhandled exception in request " ++ ev.requestId ++ ": " ++ msg) },
     store)

end DashboardAutomation

namespace DashboardAutomation

/-- The resource properties of the end-to-end demo scenario. -/
def demoProperties : ResourceProperties :=
  { opensearchUIEndpoint := "application-app-demo-abc123.us-west-2.opensearch.amazonaws.com"
    domainName := "data-source-demo"
    domainEndpoint := "search-demo.example.com"
    workspaceName := "workspace-demo"
    region := "us-west-2" }

/-- A retryable status that keeps coming back consumes every attempt of the
fuel and ends in RetryExhausted. -/
theorem sendFrom_const_retryable (s : Nat) (body : String)
    (hs : 400 ≤ s) (hr : isRetryableStatus s = true) :
    ∀ fuel used, sendFrom (fun _ => .response s body) fuel used = (.retryExhausted, used + fuel) := by
  intro fuel
  induction fuel with
  | zero => intro used; simp [sendFrom]
  | succ n ih =>
    intro used
    have hlt : ¬ s < 400 := by omega
    simp only [sendFrom, hlt, if_false, hr, if_true]
    rw [ih (used + 1)]
    have harith : used + 1 + n = used + (n + 1) := by omega
    rw [harith]

end DashboardAutomation

/-- C1: the HTTP Client classifies a failure as retryable exactly when the
status is 409, 425, 429 or any 5xx, or the error is connection-level; under
a constant failure response, a permanent status (any other 4xx, e.g. 403)
surfaces immediately after one attempt with zero retries, while a sustained
retryable status (e.g. 503) is retried up to the attempt ceiling and then
surfaces RetryExhausted. -/
theorem httpClient_retry_classification (s : Nat) (body : String) (m : Nat)
    (hm : 1 ≤ m) (hs : 400 ≤ s) :
    (DashboardAutomation.isRetryableStatus s = true ↔
      s = 409 ∨ s = 425 ∨ s = 429 ∨ (500 ≤ s ∧ s ≤ 599)) ∧
    DashboardAutomation.isRetryableOutcome .connectionError = true ∧
    (DashboardAutomation.isRetryableStatus s = false →
      DashboardAutomation.send (fun _ => .response s body) m =
        (.permanentFailure s body, 1)) ∧
    (DashboardAutomation.isRetryableStatus s = true →
      DashboardAutomation.send (fun _ => .response s body) m =
        (.retryExhausted, m)) := by
  refine ⟨?_, rfl, ?_, ?_⟩
  · simp [DashboardAutomation.isRetryableStatus, or_assoc]
  · intro hperm
    obtain ⟨n, rfl⟩ : ∃ n, m = n + 1 := ⟨m - 1, by omega⟩
    have hlt : ¬ s < 400 := by omega
    simp [DashboardAutomation.send, DashboardAutomation.sendFrom, hlt, hperm]
  · intro hr
    have := DashboardAutomation.sendFrom_const_retryable s body hs hr m 0
    simpa [DashboardAutomation.send] using this

/-- Witness for C1 at the concrete statuses of the claim: a sustained 503 is
retried to the ceiling of 3 attempts and surfaces RetryExhausted, while a
403 surfaces as PermanentFailure after exactly one attempt. -/
theorem httpClient_retry_classification_witness :
    DashboardAutomation.send (fun _ => .response 503 "unavailable") 3 =
      (.retryExhausted, 3) ∧
    DashboardAutomation.send (fun _ => .response 403 "denied") 3 =
      (.permanentFailure 403 "denied", 1) :=
  ⟨(httpClient_retry_classification 503 "unavailable" 3 (by decide) (by decide)).2.2.2
     (by decide),
   (httpClient_retry_classification 403 "denied" 3 (by decide) (by decide)).2.2.1
     (by decide)⟩

namespace DashboardAutomation

/-- The full object graph of an event's properties, one object per stage in
dependency order. -/
def graphObjects (props : ResourceProperties) : List SavedObject :=
  stageTypes.map (stageObject props)

/-- The store component of the Create path is the forward pass. -/
theorem handleCreate_snd (props : ResourceProperties) (store : List SavedObject) :
    (handleCreate props store).2 = provisionForward props store := rfl

/-- The type of a stage object is its stage. -/
theorem stageObject_type (props : ResourceProperties) (t : SavedObjectType) :
    (stageObject props t).type = t := rfl

theorem upsert_fresh (store : List SavedObject) (o : SavedObject)
    (h : store.any (fun x => sameKey x o.type o.id) = false) :
    upsert store o = store ++ [o] := by
  simp only [upsert, h]
  simp

theorem upsert_identical (store : List SavedObject) (o : SavedObject)
    (h1 : store.any (fun x => sameKey x o.type o.id) = true)
    (h2 : ∀ x ∈ store, sameKey x o.type o.id = true → x = o) :
    upsert store o = store := by
  simp only [upsert, h1, if_true]
  conv_rhs => rw [← List.map_id store]
  apply List.map_congr_left
  intro x hx
  by_cases hk : sameKey x o.type o.id = true
  · simp [hk, h2 x hx hk]
  · simp [hk]

theorem sameKey_stage_ne (props : ResourceProperties) (t u : SavedObjectType) (i : String)
    (h : (t == u) = false) :
    sameKey (stageObject props t) u i = false := by
  show (t == u && deterministicId (nsOf props) t == i) = false
  rw [h, Bool.false_and]

theorem sameKey_stage_self (props : ResourceProperties) (t : SavedObjectType) :
    sameKey (stageObject props t) t (deterministicId (nsOf props) t) = true := by
  show (t == t && deterministicId (nsOf props) t == deterministicId (nsOf props) t) = true
  simp

theorem provisionForward_nil (props : ResourceProperties) :
    provisionForward props [] = graphObjects props := by
  have e1 : upsert [] (stageObject props .workspace) = [stageObject props .workspace] := by
    rw [upsert_fresh [] (stageObject props .workspace) (by rfl)]
    rfl
  have e2 : upsert [stageObject props .workspace] (stageObject props .indexPattern) =
      [stageObject props .workspace, stageObject props .indexPattern] := by
    have h : [stageObject props .workspace].any
        (fun x => sameKey x SavedObjectType.indexPattern
          (deterministicId (nsOf props) .indexPattern)) = false := by
      simp only [List.any_cons, List.any_nil, Bool.or_false]
      exact sameKey_stage_ne props _ _ _ (by decide)
    rw [upsert_fresh _ _ h]
    rfl
  have e3 : upsert [stageObject props .workspace, stageObject props .indexPattern]
      (stageObject props .visualization) =
      [stageObject props .workspace, stageObject props .indexPattern,
       stageObject props .visualization] := by
    have h : [stageObject props .workspace, stageObject props .indexPattern].any
        (fun x => sameKey x SavedObjectType.visualization
          (deterministicId (nsOf props) .visualization)) = false := by
      simp only [List.any_cons, List.any_nil, Bool.or_false]
      rw [sameKey_stage_ne props .workspace .visualization _ (by decide),
        sameKey_stage_ne props .indexPattern .visualization _ (by decide)]
      rfl
    rw [upsert_fresh _ _ h]
    rfl
  have e4 : upsert [stageObject props .workspace, stageObject props .indexPattern,
      stageObject props .visualization] (stageObject props .dashboard) =
      [stageObject props .workspace, stageObject props .indexPattern,
       stageObject props .visualization, stageObject props .dashboard] := by
    have h : [stageObject props .workspace, stageObject props .indexPattern,
        stageObject props .visualization].any
        (fun x => sameKey x SavedObjectType.dashboard
          (deterministicId (nsOf props) .dashboard)) = false := by
      simp only [List.any_cons, List.any_nil, Bool.or_false]
      rw [sameKey_stage_ne props .workspace .dashboard _ (by decide),
        sameKey_stage_ne props .indexPattern .dashboard _ (by decide),
        sameKey_stage_ne props .visualization .dashboard _ (by decide)]
      rfl
    rw [upsert_fresh _ _ h]
    rfl
  show upsert (upsert (upsert (upsert []
      (stageObject props .workspace)) (stageObject props .indexPattern))
      (stageObject props .visualization)) (stageObject props .dashboard) = _
  rw [e1, e2, e3, e4]
  rfl

theorem provisionForward_graph (props : ResourceProperties) :
    provisionForward props (graphObjects props) = graphObjects props := by
  have hmem : ∀ t : SavedObjectType, ∀ x ∈ graphObjects props,
      sameKey x t (deterministicId (nsOf props) t) = true → x = stageObject props t := by
    intro t x hx hk
    have hx4 : x = stageObject props .workspace ∨ x = stageObject props .indexPattern ∨
        x = stageObject props .visualization ∨ x = stageObject props .dashboard := by
      simpa [graphObjects, stageTypes] using hx
    have htype : x.type = t := by
      rw [sameKey, Bool.and_eq_true, beq_iff_eq] at hk
      exact hk.1
    rcases hx4 with h4 | h4 | h4 | h4 <;> subst h4 <;>
      rw [stageObject_type] at htype <;> subst htype <;> rfl
  have hany : ∀ t : SavedObjectType, t ∈ stageTypes →
      (graphObjects props).any
        (fun x => sameKey x t (deterministicId (nsOf props) t)) = true := by
    intro t ht
    rw [List.any_eq_true]
    exact ⟨stageObject props t, List.mem_map_of_mem _ ht, sameKey_stage_self props t⟩
  show upsert (upsert (upsert (upsert (graphObjects props)
      (stageObject props .workspace)) (stageObject props .indexPattern))
      (stageObject props .visualization)) (stageObject props .dashboard) = _
  rw [upsert_identical (graphObjects props) (stageObject props .workspace)
    (hany .workspace (by decide)) (hmem .workspace)]
  rw [upsert_identical (graphObjects props) (stageObject props .indexPattern)
    (hany .indexPattern (by decide)) (hmem .indexPattern)]
  rw [upsert_identical (graphObjects props) (stageObject props .visualization)
    (hany .visualization (by decide)) (hmem .visualization)]
  rw [upsert_identical (graphObjects props) (stageObject props .dashboard)
    (hany .dashboard (by decide)) (hmem .dashboard)]

theorem countKey_graph_workspace (props : ResourceProperties) :
    countKey (graphObjects props) .workspace (deterministicId (nsOf props) .workspace) = 1 := by
  show (List.filter _ [stageObject props .workspace, stageObject props .indexPattern,
    stageObject props .visualization, stageObject props .dashboard]).length = 1
  rw [List.filter_cons, List.filter_cons, List.filter_cons, List.filter_cons]
  rw [sameKey_stage_self props .workspace,
    sameKey_stage_ne props .indexPattern .workspace _ (by decide),
    sameKey_stage_ne props .visualization .workspace _ (by decide),
    sameKey_stage_ne props .dashboard .workspace _ (by decide)]
  rfl

end DashboardAutomation

/-- C2: invoking the handler twice with an identical Create event yields the
same WorkspaceId and DashboardId both times, the second pass leaves the
object store unchanged (each upsert is keyed on a deterministic id and an
already-existing object with identical content counts as success), and
after both invocations the store holds exactly one workspace object of the
deterministic workspace id. -/
theorem create_idempotent (props : DashboardAutomation.ResourceProperties) :
    (DashboardAutomation.handleCreate props
        (DashboardAutomation.handleCreate props []).2).1 =
      (DashboardAutomation.handleCreate props []).1 ∧
    (DashboardAutomation.handleCreate props
        (DashboardAutomation.handleCreate props []).2).2 =
      (DashboardAutomation.handleCreate props []).2 ∧
    DashboardAutomation.countKey
        (DashboardAutomation.handleCreate props
          (DashboardAutomation.handleCreate props []).2).2
        .workspace
        (DashboardAutomation.deterministicId (DashboardAutomation.nsOf props) .workspace) = 1 := by
  refine ⟨rfl, ?_, ?_⟩
  · simp only [DashboardAutomation.handleCreate_snd]
    rw [DashboardAutomation.provisionForward_nil,
      DashboardAutomation.provisionForward_graph]
  · simp only [DashboardAutomation.handleCreate_snd]
    rw [DashboardAutomation.provisionForward_nil,
      DashboardAutomation.provisionForward_graph]
    exact DashboardAutomation.countKey_graph_workspace props

namespace DashboardAutomation

/-- Every per-stage delete outcome — deleted or already absent — counts as
success for the provisioner. -/
theorem stageDeleteOk_true (r : DeleteApiResult) : stageDeleteOk r = true := by
  cases r <;> rfl

/-- A raw delete on a store that has no object of the key answers notFound
and leaves the store unchanged. -/
theorem rawDelete_not_present (store : List SavedObject) (t : SavedObjectType) (i : String)
    (h : store.any (fun x => sameKey x t i) = false) :
    rawDelete store t i = (store, .notFound) := by
  simp [rawDelete, h]

/-- Store component of a raw delete on a store without the key. -/
theorem rawDelete_fst_not_present (store : List SavedObject) (t : SavedObjectType) (i : String)
    (h : store.any (fun x => sameKey x t i) = false) :
    (rawDelete store t i).1 = store := by
  simp [rawDelete, h]

/-- A predicate false on every element of a store is false on every element
of any filtering of it. -/
theorem any_filter_false (store : List SavedObject) (p q : SavedObject → Bool)
    (h : store.any p = false) : (store.filter q).any p = false := by
  rw [List.any_eq_false] at h ⊢
  intro x hx
  exact h x (List.mem_of_mem_filter hx)

/-- After a raw delete of a key, no object of that key remains. -/
theorem rawDelete_fst_self_any_false (store : List SavedObject) (t : SavedObjectType)
    (i : String) :
    (rawDelete store t i).1.any (fun x => sameKey x t i) = false := by
  rw [rawDelete]
  split
  · rw [List.any_eq_false]
    intro x hx
    have := List.of_mem_filter hx
    simp only [Bool.not_eq_true'] at this
    simp [this]
  · rename_i hc
    simpa using hc

/-- A raw delete never brings a key back: absence of any key is preserved. -/
theorem rawDelete_fst_any_false (store : List SavedObject) (t2 : SavedObjectType) (i2 : String)
    (t : SavedObjectType) (i : String)
    (h : store.any (fun x => sameKey x t i) = false) :
    (rawDelete store t2 i2).1.any (fun x => sameKey x t i) = false := by
  rw [rawDelete]
  split
  · exact any_filter_false store _ _ h
  · exact h

/-- The reverse pass reports success whatever the initial pass state says,
once per-stage outcomes are folded: the fold keeps the accumulator's
success flag. -/
theorem foldl_deleteStep_succeeded (ns : String) (ts : List SavedObjectType) :
    ∀ acc : DeletePass, (ts.foldl (deleteStep ns) acc).succeeded = acc.succeeded := by
  induction ts with
  | nil => intro acc; rfl
  | cons t ts ih =>
    intro acc
    rw [List.foldl_cons, ih]
    show (acc.succeeded &&
      stageDeleteOk (rawDelete acc.store t (deterministicId ns t)).2) = acc.succeeded
    rw [stageDeleteOk_true, Bool.and_true]

/-- The reverse pass of the provisioner always reports success: deleted and
already-absent stages both count as success. -/
theorem provisionDelete_succeeded (props : ResourceProperties) (store : List SavedObject) :
    (provisionDelete props store).succeeded = true :=
  foldl_deleteStep_succeeded (nsOf props) stageTypes.reverse _

/-- Success component of the Delete path. -/
theorem handleDelete_fst_succeeded (props : ResourceProperties) (store : List SavedObject) :
    (handleDelete props store).1.succeeded = (provisionDelete props store).succeeded := rfl

/-- Store component of the Delete path. -/
theorem handleDelete_snd (props : ResourceProperties) (store : List SavedObject) :
    (handleDelete props store).2 = (provisionDelete props store).store := rfl

/-- The store left by the reverse pass, as the chain of raw deletes in
reverse dependency order. -/
theorem provisionDelete_store (props : ResourceProperties) (s0 : List SavedObject) :
    (provisionDelete props s0).store =
      (rawDelete (rawDelete (rawDelete (rawDelete s0
        .dashboard (deterministicId (nsOf props) .dashboard)).1
        .visualization (deterministicId (nsOf props) .visualization)).1
        .indexPattern (deterministicId (nsOf props) .indexPattern)).1
        .workspace (deterministicId (nsOf props) .workspace)).1 := rfl

end DashboardAutomation

/-- C6: on every Delete event the provisioner issues the delete operations
in exactly the reverse of the creation dependency order — dashboard first,
then visualization, then index-pattern, then workspace — each keyed on the
stage's deterministic id, it interprets an already-absent stage (notFound)
as success, and the whole reverse pass reports success. -/
theorem delete_reverse_order (props : DashboardAutomation.ResourceProperties)
    (store : List DashboardAutomation.SavedObject) :
    (DashboardAutomation.provisionDelete props store).ops =
      [(.dashboard, DashboardAutomation.deterministicId (DashboardAutomation.nsOf props) .dashboard),
       (.visualization, DashboardAutomation.deterministicId (DashboardAutomation.nsOf props) .visualization),
       (.indexPattern, DashboardAutomation.deterministicId (DashboardAutomation.nsOf props) .indexPattern),
       (.workspace, DashboardAutomation.deterministicId (DashboardAutomation.nsOf props) .workspace)] ∧
    (DashboardAutomation.provisionDelete props store).ops.map Prod.fst =
      DashboardAutomation.stageTypes.reverse ∧
    DashboardAutomation.stageDeleteOk .notFound = true ∧
    (DashboardAutomation.provisionDelete props store).succeeded = true :=
  ⟨rfl, rfl, rfl, DashboardAutomation.provisionDelete_succeeded props store⟩

/-- C5: a Delete lifecycle event against an object graph that is entirely
absent returns success (each stage's notFound answer counts as success) and
leaves the store untouched; moreover after any successful delete the graph
is entirely absent, so re-running Delete (as after a prior successful
delete) again returns success. -/
theorem delete_idempotent (props : DashboardAutomation.ResourceProperties)
    (store s0 : List DashboardAutomation.SavedObject)
    (h : DashboardAutomation.graphAbsent (DashboardAutomation.nsOf props) store = true) :
    (DashboardAutomation.handleDelete props store).1.succeeded = true ∧
    (DashboardAutomation.handleDelete props store).2 = store ∧
    DashboardAutomation.graphAbsent (DashboardAutomation.nsOf props)
      (DashboardAutomation.handleDelete props s0).2 = true ∧
    (DashboardAutomation.handleDelete props
      (DashboardAutomation.handleDelete props s0).2).1.succeeded = true := by
  refine ⟨?_, ?_, ?_, ?_⟩
  · rw [DashboardAutomation.handleDelete_fst_succeeded]
    exact DashboardAutomation.provisionDelete_succeeded props store
  · simp only [DashboardAutomation.graphAbsent, DashboardAutomation.stageTypes,
      List.all_cons, List.all_nil, Bool.and_eq_true, Bool.not_eq_true'] at h
    obtain ⟨hw, hip, hviz, ⟨hd, -⟩⟩ := h
    rw [DashboardAutomation.handleDelete_snd, DashboardAutomation.provisionDelete_store]
    rw [DashboardAutomation.rawDelete_fst_not_present _ _ _ hd,
      DashboardAutomation.rawDelete_fst_not_present _ _ _ hviz,
      DashboardAutomation.rawDelete_fst_not_present _ _ _ hip,
      DashboardAutomation.rawDelete_fst_not_present _ _ _ hw]
  · open DashboardAutomation in
    rw [handleDelete_snd, provisionDelete_store]
    open DashboardAutomation in
    set iD := deterministicId (nsOf props) .dashboard
    open DashboardAutomation in
    set iV := deterministicId (nsOf props) .visualization
    open DashboardAutomation in
    set iI := deterministicId (nsOf props) .indexPattern
    open DashboardAutomation in
    set iW := deterministicId (nsOf props) .workspace
    open DashboardAutomation in
    set s1 := (rawDelete s0 .dashboard iD).1
    open DashboardAutomation in
    set s2 := (rawDelete s1 .visualization iV).1
    open DashboardAutomation in
    set s3 := (rawDelete s2 .indexPattern iI).1
    open DashboardAutomation in
    set s4 := (rawDelete s3 .workspace iW).1
    open DashboardAutomation in
    have hd1 := rawDelete_fst_self_any_false s0 .dashboard iD
    open DashboardAutomation in
    have hd2 := rawDelete_fst_any_false s1 .visualization iV .dashboard iD hd1
    open DashboardAutomation in
    have hd3 := rawDelete_fst_any_false s2 .indexPattern iI .dashboard iD hd2
    open DashboardAutomation in
    have hd4 := rawDelete_fst_any_false s3 .workspace iW .dashboard iD hd3
    open DashboardAutomation in
    have hv2 := rawDelete_fst_self_any_false s1 .visualization iV
    open DashboardAutomation in
    have hv3 := rawDelete_fst_any_false s2 .indexPattern iI .visualization iV hv2
    open DashboardAutomation in
    have hv4 := rawDelete_fst_any_false s3 .workspace iW .visualization iV hv3
    open DashboardAutomation in
    have hi3 := rawDelete_fst_self_any_false s2 .indexPattern iI
    open DashboardAutomation in
    have hi4 := rawDelete_fst_any_false s3 .workspace iW .indexPattern iI hi3
    open DashboardAutomation in
    have hw4 := rawDelete_fst_self_any_false s3 .workspace iW
    simp only [DashboardAutomation.graphAbsent, DashboardAutomation.stageTypes,
      List.all_cons, List.all_nil, Bool.and_eq_true, Bool.not_eq_true']
    exact ⟨hw4, hi4, hv4, hd4, trivial⟩
  · rw [DashboardAutomation.handleDelete_fst_succeeded]
    exact DashboardAutomation.provisionDelete_succeeded props _

/-- Witness for C5: deleting against the empty store — the whole graph
already absent — returns success and leaves the store empty. -/
theorem delete_idempotent_witness :
    (DashboardAutomation.handleDelete DashboardAutomation.demoProperties []).1.succeeded = true ∧
    (DashboardAutomation.handleDelete DashboardAutomation.demoProperties []).2 = [] :=
  ⟨(delete_idempotent DashboardAutomation.demoProperties [] [] (by decide)).1,
   (delete_idempotent DashboardAutomation.demoProperties [] [] (by decide)).2.1⟩

namespace DashboardAutomation

/-- Behaviour of the polling loop: the trace is bounded by the fuel, the
loop answers ready exactly when some poll within the fuel observes ready,
and a timeout consumes the entire fuel. -/
theorem waitFrom_spec (health : Nat → Bool) :
    ∀ fuel start,
      (waitFrom health fuel start).2.length ≤ fuel ∧
      ((waitFrom health fuel start).1 = .ready ↔
        ∃ j, j < fuel ∧ health (start + j) = true) ∧
      ((waitFrom health fuel start).1 = .timedOut →
        (waitFrom health fuel start).2.length = fuel) := by
  intro fuel
  induction fuel with
  | zero =>
    intro start
    refine ⟨by simp [waitFrom], by simp [waitFrom], fun _ => rfl⟩
  | succ f ih =>
    intro start
    by_cases h : health start = true
    · have hstep : waitFrom health (f + 1) start = (.ready, [.healthPoll true]) := by
        simp only [waitFrom]
        rw [if_pos h]
      rw [hstep]
      refine ⟨by simp, ?_, by simp⟩
      constructor
      · intro _
        exact ⟨0, by omega, by simpa using h⟩
      · intro _
        rfl
    · have h2 : health start = false := by
        revert h
        cases health start <;> simp
      rcases hrec : waitFrom health f (start + 1) with ⟨r, tr⟩
      have hstep : waitFrom health (f + 1) start = (r, .healthPoll false :: tr) := by
        simp only [waitFrom]
        rw [if_neg (by simp [h2])]
        rw [hrec]
      have ihs := ih (start + 1)
      rw [hrec] at ihs
      simp only at ihs
      rw [hstep]
      simp only [List.length_cons]
      refine ⟨by omega, ?_, ?_⟩
      · rw [ihs.2.1]
        constructor
        · rintro ⟨j, hj, hjr⟩
          exact ⟨j + 1, by omega, by
            have : start + 1 + j = start + (j + 1) := by omega
            rw [← this]
            exact hjr⟩
        · rintro ⟨j, hj, hjr⟩
          cases j with
          | zero =>
            rw [Nat.add_zero] at hjr
            rw [hjr] at h2
            cases h2
          | succ j2 =>
            exact ⟨j2, by omega, by
              have : start + 1 + j2 = start + (j2 + 1) := by omega
              rw [this]
              exact hjr⟩
      · intro hr
        rw [ihs.2.2 hr]

/-- The polling loop under a health oracle that reports not-ready for the
first n polls and ready from poll n on: the loop returns ready with a trace
of exactly n failed polls followed by one successful poll. -/
theorem waitFrom_ramp (n : Nat) :
    ∀ (health : Nat → Bool) (fuel start : Nat), n < fuel →
      (∀ k, health k = decide (start + n ≤ k)) →
      waitFrom health fuel start =
        (.ready, List.replicate n (.healthPoll false) ++ [.healthPoll true]) := by
  induction n with
  | zero =>
    intro health fuel start hf hh
    obtain ⟨f, rfl⟩ : ∃ f, fuel = f + 1 := ⟨fuel - 1, by omega⟩
    have hs : health start = true := by
      rw [hh start]
      simp
    simp only [waitFrom]
    rw [if_pos hs]
    rfl
  | succ n ih =>
    intro health fuel start hf hh
    obtain ⟨f, rfl⟩ : ∃ f, fuel = f + 1 := ⟨fuel - 1, by omega⟩
    have hs : health start = false := by
      rw [hh start]
      simp only [decide_eq_false_iff_not]
      omega
    have hrec := ih health f (start + 1) (by omega) (by
      intro k
      rw [hh k]
      have : start + 1 + n = start + (n + 1) := by omega
      rw [this])
    simp only [waitFrom]
    rw [if_neg (by simp [hs])]
    rw [hrec]
    rfl

end DashboardAutomation

/-- C4: for every health oracle and deadline, `waitUntilReady` terminates
within its bounded polling budget: it makes at most `deadline` polls,
always answers Ready or TimedOut, answers Ready exactly when some poll
within the deadline observes a queryable status, and on TimedOut it has
used the entire deadline rather than looping forever. -/
theorem waitUntilReady_terminates (health : Nat → Bool) (deadline : Nat) :
    (DashboardAutomation.waitUntilReady health deadline).2.length ≤ deadline ∧
    ((DashboardAutomation.waitUntilReady health deadline).1 = .ready ∨
      (DashboardAutomation.waitUntilReady health deadline).1 = .timedOut) ∧
    ((DashboardAutomation.waitUntilReady health deadline).1 = .ready ↔
      ∃ k, k < deadline ∧ health k = true) ∧
    ((DashboardAutomation.waitUntilReady health deadline).1 = .timedOut →
      (DashboardAutomation.waitUntilReady health deadline).2.length = deadline) := by
  have hspec := DashboardAutomation.waitFrom_spec health deadline 0
  refine ⟨hspec.1, ?_, ?_, hspec.2.2⟩
  · cases hres : (DashboardAutomation.waitUntilReady health deadline).1
    · exact Or.inl rfl
    · exact Or.inr rfl
  · have hiff := hspec.2.1
    simpa [DashboardAutomation.waitUntilReady, Nat.zero_add] using hiff

/-- C3: when the health query reports not-ready for the first n polls and
ready from poll n on (n within the deadline), the Create trace is exactly n
failed polls, the successful poll, then the provisioner's writes: the ready
response sits at position n of the trace, every write sits strictly after
it, the Readiness Gate run precedes the first write, calling the gate when
already ready returns immediately after a single poll, and in the CDK
dependency graph the UI application depends on the DomainReadyWaiter and
the dashboard-setup custom resource on the UI application. -/
theorem readiness_gating (health : Nat → Bool) (deadline n : Nat)
    (props : DashboardAutomation.ResourceProperties)
    (hn : n < deadline) (hh : ∀ k, health k = decide (n ≤ k)) :
    DashboardAutomation.handlerTrace health deadline props =
      List.replicate n (.healthPoll false) ++
        .healthPoll true :: DashboardAutomation.writeTrace props ∧
    (DashboardAutomation.handlerTrace health deadline props)[n]? =
      some (.healthPoll true) ∧
    (∀ i t s, (DashboardAutomation.handlerTrace health deadline props)[i]? =
      some (.write t s) → n < i) ∧
    (∀ h2 d2, 0 < d2 → h2 0 = true →
      DashboardAutomation.waitUntilReady h2 d2 = (.ready, [.healthPoll true])) ∧
    (∀ b, ("OpenSearchUI", "DomainReadyWaiter") ∈ DashboardStack.explicitDependencies b ∧
      ("DashboardSetupResource", "OpenSearchUI") ∈ DashboardStack.explicitDependencies b) := by
  have hw := DashboardAutomation.waitFrom_ramp n health deadline 0 hn (by
    intro k
    rw [hh k, Nat.zero_add])
  have hE : DashboardAutomation.handlerTrace health deadline props =
      List.replicate n (.healthPoll false) ++
        .healthPoll true :: DashboardAutomation.writeTrace props := by
    simp only [DashboardAutomation.handlerTrace, DashboardAutomation.waitUntilReady]
    rw [hw]
    simp [List.append_assoc]
  refine ⟨hE, ?_, ?_, ?_, ?_⟩
  · rw [hE, List.getElem?_append_right (by simp)]
    simp
  · intro i t s hi
    by_contra hcon
    push_neg at hcon
    rcases Nat.lt_or_ge i n with hlt | hge
    · rw [hE, List.getElem?_append_left (by simpa using hlt),
        List.getElem?_replicate, if_pos hlt] at hi
      simp at hi
    · have heq : i = n := by omega
      subst heq
      rw [hE, List.getElem?_append_right (by simp)] at hi
      simp at hi
  · intro h2 d2 hd2 hr2
    obtain ⟨f, rfl⟩ : ∃ f, d2 = f + 1 := ⟨d2 - 1, by omega⟩
    show DashboardAutomation.waitFrom h2 (f + 1) 0 = (.ready, [.healthPoll true])
    simp only [DashboardAutomation.waitFrom]
    rw [if_pos hr2]
  · intro b
    cases b <;> exact ⟨by decide, by decide⟩

/-- Witness for C3 at a concrete oracle: not-ready for polls 0 and 1, ready
from poll 2, deadline 5 — the trace is two failed polls, the ready poll,
then the writes. -/
theorem readiness_gating_witness :
    DashboardAutomation.handlerTrace (fun k => decide (2 ≤ k)) 5
        DashboardAutomation.demoProperties =
      List.replicate 2 (.healthPoll false) ++
        .healthPoll true ::
          DashboardAutomation.writeTrace DashboardAutomation.demoProperties :=
  (readiness_gating (fun k => decide (2 ≤ k)) 5 2 DashboardAutomation.demoProperties
    (by decide) (fun k => rfl)).1

/-- C7: the workspace-id computation is deterministic — for the inputs
domainName "data-source-demo" and workspaceName "workspace-demo" (and any
other inputs), two runs in arbitrarily different environments (different
process ids, random seeds, clocks) produce the identical id, because the id
is derived from the stable namespace plus the object type and reads no
random component of the environment. -/
theorem workspaceId_deterministic (e1 e2 : DashboardAutomation.RunEnvironment)
    (d w : String) :
    DashboardAutomation.computeWorkspaceId e1 d w =
      DashboardAutomation.computeWorkspaceId e2 d w ∧
    DashboardAutomation.computeWorkspaceId e1 "data-source-demo" "workspace-demo" =
      DashboardAutomation.computeWorkspaceId e2 "data-source-demo" "workspace-demo" ∧
    DashboardAutomation.computeWorkspaceId e1 d w =
      DashboardAutomation.stableNamespace d w ++ ":" ++
        DashboardAutomation.typeName .workspace :=
  ⟨rfl, rfl, rfl⟩

/-- C8: the Lifecycle Event Adapter always returns a structured response —
its status is SUCCESS or FAILED; without an injected exception every
request type succeeds; and when any component raises an unclassified
exception the adapter catches it at the boundary and converts it into a
FAILED response whose human-readable reason (carrying the requestId) is
nonempty — nothing propagates uncaught. -/
theorem adapter_catches_all (ev : DashboardAutomation.LifecycleEvent)
    (store : List DashboardAutomation.SavedObject)
    (fault : Option String) (msg : String) :
    ((DashboardAutomation.handle ev store fault).1.status = .SUCCESS ∨
      (DashboardAutomation.handle ev store fault).1.status = .FAILED) ∧
    (DashboardAutomation.handle ev store none).1.status = .SUCCESS ∧
    (DashboardAutomation.handle ev store (some msg)).1.status = .FAILED ∧
    (∃ r, (DashboardAutomation.handle ev store (some msg)).1.reason = some r ∧
      0 < r.length) := by
  refine ⟨?_, ?_, rfl, ?_⟩
  · cases hres : (DashboardAutomation.handle ev store fault).1.status
    · exact Or.inl rfl
    · exact Or.inr rfl
  · rcases ev with ⟨rt, rid, pid, props⟩
    cases rt
    · rfl
    · rfl
    · have hs := DashboardAutomation.provisionDelete_succeeded props store
      simp [DashboardAutomation.handle, DashboardAutomation.runInner,
        DashboardAutomation.handleDelete, hs]
  · refine ⟨"Unhandled exception in request " ++ ev.requestId ++ ": " ++ msg, rfl, ?_⟩
    rw [String.length_append, String.length_append, String.length_append]
    have h31 : ("Unhandled exception in request ").length = 31 := rfl
    omega
